import Mathlib

/-!
# Weenix `kernel/main/kmain.c`: boot sequencing, init process, shutdown

A shallow embedding of `src/kmain.c`.  Every routine of the file becomes a
state-passing function over an abstract kernel world `σ`; each call that leaves
the file (initializers, process and thread creation, the scheduler, the VFS,
`kernel_execve`, the console) is a field of the record `Kernel σ`, and each such
call is appended to a trace of `Event`s, so that "which calls are made, in which
order, with which arguments" is a statement about a list.

The logging macro `dbg(...)` and the debugger hooks `GDB_DEFINE_HOOK` /
`GDB_CALL_HOOK` have no effect on control flow or on the kernel world and are
left out of the trace.
-/

namespace Weenix

/-! ## Configuration and constants that live outside `kmain.c` -/

/-- Compile-time configuration: the preprocessor symbols tested by `kmain.c`
(`__VM__`, `__DRIVERS__`, `__SMP__`, `__VFS__`) and the two counts
`__NTERMS__`, `__NDISKS__` used as `long` loop bounds in `make_devices`. -/
structure Config where
  VM : Bool
  DRIVERS : Bool
  SMP : Bool
  VFS : Bool
  NTERMS : Int
  NDISKS : Int
deriving DecidableEq, Repr

/-- The source fixes `#define DO_KTEST 0`. -/
def DO_KTEST : Bool := false

/-- Constants and macros that `kmain.c` takes from headers which are not part of
the source under study.  They are parameters of the development; the only fact
assumed about them is that the errno value `EEXIST` is positive. -/
structure Headers where
  EEXIST : Int
  EEXIST_pos : 0 < EEXIST
  PID_INIT : Int
  S_IFCHR : Nat
  S_IFBLK : Nat
  MEM_NULL_DEVID : Nat
  MEM_ZERO_DEVID : Nat
  TTY_MAJOR : Nat
  DISK_MAJOR : Nat
  MKDEVID : Nat → Int → Nat

/-! ## The initializer table -/

/-- The functions that can appear in `init_funcs`. -/
inductive init_func_t
  | dbg_init | intr_init | page_init | pt_init | acpi_init | apic_init
  | core_init | slab_init | pframe_init | pci_init | vga_init
  | anon_init | shadow_init
  | vmmap_init | proc_init | kthread_init
  | chardev_init | blockdev_init
  | kshell_init | file_init | pipe_init | syscall_init | elf64_init
  | smp_init
  | proc_idleproc_init
deriving DecidableEq, Repr

/-- The table `init_funcs[]`, with its three `#ifdef` blocks. -/
def init_funcs (cfg : Config) : List init_func_t :=
  [.dbg_init, .intr_init, .page_init, .pt_init, .acpi_init, .apic_init,
   .core_init, .slab_init, .pframe_init, .pci_init, .vga_init]
  ++ (if cfg.VM then [.anon_init, .shadow_init] else [])
  ++ [.vmmap_init, .proc_init, .kthread_init]
  ++ (if cfg.DRIVERS then [.chardev_init, .blockdev_init] else [])
  ++ [.kshell_init, .file_init, .pipe_init, .syscall_init, .elf64_init]
  ++ (if cfg.SMP then [.smp_init] else [])
  ++ [.proc_idleproc_init]

/-! ## Processes, threads, events -/

/-- The part of `proc_t` that `kmain.c` reads: `p_pid`. -/
structure proc_t where
  p_pid : Int
deriving DecidableEq, Repr

/-- A thread handle as returned by `kthread_create`. -/
structure kthread_t where
  kt_id : Nat
deriving DecidableEq, Repr

/-- Thread entry points (`kthread_func_t`); `kmain.c` defines `initproc_run`. -/
inductive kthread_func_t
  | initproc_run
  | other (name : String)
deriving DecidableEq, Repr

/-- One observable action of `kmain.c`: a call that leaves the file together
with its arguments (and its result where the code inspects it), a `panic`, or
one round `cli; hlt` of the halt loop. -/
inductive Event
  | init (f : init_func_t)
  | proc_create (name : String) (ret : Option proc_t)
  | kthread_create (p : proc_t) (func : kthread_func_t) (arg1 : Int)
      (arg2 : Option Nat) (ret : Option kthread_t)
  | sched_make_runnable (thr : kthread_t)
  | context_make_active
  | panic (msg : String)
  | proctest_main
  | driverstest_main
  | vmtest_main
  | vfs_init
  | do_mkdir (path : String) (status : Int)
  | do_mknod (path : String) (mode : Nat) (devid : Nat) (status : Int)
  | kernel_execve (filename : String) (argv : List String) (envp : List String)
  | vfs_shutdown (status : Int)
  | screen_print_shutdown
  | cli_hlt
deriving DecidableEq, Repr

/-- The collaborators of `kmain.c`, as functions on the kernel world `σ`.
The `void` collaborators (the initializers, `sched_make_runnable`, `vfs_init`,
`screen_print_shutdown`, the diagnostic suites) return to their caller.
A `none` from `context_make_active` or `kernel_execve` means that control
never comes back to the caller. -/
structure Kernel (σ : Type) where
  run_init : init_func_t → σ → σ
  proc_create : String → σ → Option proc_t × σ
  kthread_create : proc_t → kthread_func_t → Int → Option Nat → σ → Option kthread_t × σ
  sched_make_runnable : kthread_t → σ → σ
  context_make_active : σ → Option σ
  curproc_pid : σ → Int
  proctest_main : σ → σ
  driverstest_main : σ → σ
  vmtest_main : σ → σ
  vfs_init : σ → σ
  do_mkdir : String → σ → Int × σ
  do_mknod : String → Nat → Nat → σ → Int × σ
  kernel_execve : String → List String → List String → σ → Option σ
  vfs_shutdown : σ → Int × σ
  screen_print_shutdown : σ → σ

/-! ## Execution: traces and outcomes -/

/-- Why a routine did not return to its caller. -/
inductive Stop
  | panicked (msg : String)
  | noreturn
  | spinning
deriving DecidableEq, Repr

/-- How a routine ended: it returned a value, or it stopped. `noreturn` is a
callee that keeps control for ever, `spinning` is the halt loop still running
when the observation budget is used up. -/
inductive Outcome (α : Type)
  | returned (a : α)
  | stopped (why : Stop)
deriving DecidableEq, Repr

/-- Result of running a routine: the events it produced, the kernel world it
left, and how it ended. -/
structure Res (σ α : Type) where
  trace : List Event
  world : σ
  out : Outcome α

/-- A routine of `kmain.c`: from a kernel world to a result. -/
def Exec (σ α : Type) : Type := σ → Res σ α

namespace Exec

variable {σ α β : Type}

/-- Return without any event. -/
def ret (a : α) : Exec σ α := fun w => ⟨[], w, .returned a⟩

/-- Sequencing: the second routine runs only if the first one returned. -/
def seq (m : Exec σ α) (f : α → Exec σ β) : Exec σ β := fun w =>
  match (m w).out with
  | .returned a => ⟨(m w).trace ++ (f a (m w).world).trace, (f a (m w).world).world,
      (f a (m w).world).out⟩
  | .stopped why => ⟨(m w).trace, (m w).world, .stopped why⟩

instance : Monad (Exec σ) where
  pure := ret
  bind := seq

/-- A call that returns: record the event, update the world, return `a`. -/
def emit (e : Event) (a : α) (f : σ → σ) : Exec σ α := fun w => ⟨[e], f w, .returned a⟩

/-- Stop with one final event. -/
def halt (e : Event) (why : Stop) : Exec σ α := fun w => ⟨[e], w, .stopped why⟩

end Exec

/-- The macro `panic(msg)`: the message is reported and the system stops. -/
def panic {σ α : Type} (msg : String) : Exec σ α :=
  Exec.halt (.panic msg) (.panicked msg)

/-- Modelled from the spec: the macro `KASSERT` of `util/debug.h`, which is not
part of the source under study.  A failed assertion is fatal: it panics, naming
the asserted expression. -/
def KASSERT {σ : Type} (cond : Bool) (expr : String) : Exec σ Unit :=
  if cond then pure () else panic ("assertion failed: " ++ expr)

/-! ## Calls that leave the file -/

section calls
variable {σ : Type} (k : Kernel σ)

def call_init (f : init_func_t) : Exec σ Unit :=
  Exec.emit (.init f) () (k.run_init f)

def proc_create (name : String) : Exec σ (Option proc_t) := fun w =>
  ⟨[.proc_create name (k.proc_create name w).1], (k.proc_create name w).2,
    .returned (k.proc_create name w).1⟩

def kthread_create (p : proc_t) (func : kthread_func_t) (arg1 : Int) (arg2 : Option Nat) :
    Exec σ (Option kthread_t) := fun w =>
  ⟨[.kthread_create p func arg1 arg2 (k.kthread_create p func arg1 arg2 w).1],
    (k.kthread_create p func arg1 arg2 w).2,
    .returned (k.kthread_create p func arg1 arg2 w).1⟩

def sched_make_runnable (thr : kthread_t) : Exec σ Unit :=
  Exec.emit (.sched_make_runnable thr) () (k.sched_make_runnable thr)

def context_make_active : Exec σ Unit := fun w =>
  match k.context_make_active w with
  | some w2 => ⟨[.context_make_active], w2, .returned ()⟩
  | none => ⟨[.context_make_active], w, .stopped .noreturn⟩

def curproc_p_pid : Exec σ Int := fun w => ⟨[], w, .returned (k.curproc_pid w)⟩

def proctest_main : Exec σ Unit := Exec.emit .proctest_main () k.proctest_main

def driverstest_main : Exec σ Unit := Exec.emit .driverstest_main () k.driverstest_main

def vmtest_main : Exec σ Unit := Exec.emit .vmtest_main () k.vmtest_main

def vfs_init : Exec σ Unit := Exec.emit .vfs_init () k.vfs_init

def do_mkdir (path : String) : Exec σ Int := fun w =>
  ⟨[.do_mkdir path (k.do_mkdir path w).1], (k.do_mkdir path w).2,
    .returned (k.do_mkdir path w).1⟩

def do_mknod (path : String) (mode devid : Nat) : Exec σ Int := fun w =>
  ⟨[.do_mknod path mode devid (k.do_mknod path mode devid w).1],
    (k.do_mknod path mode devid w).2, .returned (k.do_mknod path mode devid w).1⟩

def kernel_execve (filename : String) (argv envp : List String) : Exec σ Unit := fun w =>
  match k.kernel_execve filename argv envp w with
  | some w2 => ⟨[.kernel_execve filename argv envp], w2, .returned ()⟩
  | none => ⟨[.kernel_execve filename argv envp], w, .stopped .noreturn⟩

def vfs_shutdown : Exec σ Int := fun w =>
  ⟨[.vfs_shutdown (k.vfs_shutdown w).1], (k.vfs_shutdown w).2, .returned (k.vfs_shutdown w).1⟩

def screen_print_shutdown : Exec σ Unit :=
  Exec.emit .screen_print_shutdown () k.screen_print_shutdown

end calls


/-! ## The routines of `kmain.c` -/

section routines
variable {σ : Type}

/-- The loop of `kmain`:
`for (size_t i = 0; i < sizeof(init_funcs) / sizeof(init_funcs[0]); i++) init_funcs[i]();`
started at index `i`. -/
def kmain_loop (k : Kernel σ) (tbl : List init_func_t) (i : Nat) : Exec σ Unit :=
  if hi : i < tbl.length then
    (do call_init k (tbl.get ⟨i, hi⟩)
        kmain_loop k tbl (i + 1))
  else pure ()
termination_by tbl.length - i

/-- The result of `snprintf(buf, size, ...)` as a C string: the formatted text cut to
`size - 1` characters (the last byte of the buffer holds the terminating NUL). -/
def snprintf (size : Nat) (formatted : String) : String :=
  ⟨formatted.data.take (size - 1)⟩

/-- The conversion `%ld` of a `long`. -/
def fmt_ld : Int → String
  | .ofNat n => Nat.repr n
  | .negSucc n => "-" ++ Nat.repr (n + 1)

/-- The check `!status || status == -EEXIST` made after every creation call. -/
def status_ok (h : Headers) (status : Int) : Bool :=
  status == 0 || status == -h.EEXIST

/-- A C loop `for (long i = i0; i < n; i++) body(i)`, started at `i`.  The
increment cannot overflow: it is only reached with `i < n`, and `n` is a `long`. -/
def for_long (n : Int) (body : Int → Exec σ Unit) (i : Int) : Exec σ Unit :=
  if i < n then
    (do body i
        for_long n body (i + 1))
  else pure ()
termination_by (n - i).toNat
decreasing_by omega

/-- The routine `make_devices`. -/
def make_devices (h : Headers) (cfg : Config) (k : Kernel σ) : Exec σ Unit := do
  let status ← do_mkdir k "/dev"
  KASSERT (status_ok h status) "!status || status == -EEXIST"
  let status ← do_mknod k "/dev/null" h.S_IFCHR h.MEM_NULL_DEVID
  KASSERT (status_ok h status) "!status || status == -EEXIST"
  let status ← do_mknod k "/dev/zero" h.S_IFCHR h.MEM_ZERO_DEVID
  KASSERT (status_ok h status) "!status || status == -EEXIST"
  for_long cfg.NTERMS (fun i => do
    let path := snprintf 32 ("/dev/tty" ++ fmt_ld i)
    let status ← do_mknod k path h.S_IFCHR (h.MKDEVID h.TTY_MAJOR i)
    KASSERT (status_ok h status) "!status || status == -EEXIST") 0
  for_long cfg.NDISKS (fun i => do
    let path := snprintf 32 ("/dev/hda" ++ fmt_ld i)
    let status ← do_mknod k path h.S_IFBLK (h.MKDEVID h.DISK_MAJOR i)
    KASSERT (status_ok h status) "!status || status == -EEXIST") 0

/-- The routine `initproc_run`, the body of the init thread.  It returns `NULL`
(`none`). -/
def initproc_run (h : Headers) (cfg : Config) (k : Kernel σ) (_arg1 : Int)
    (_arg2 : Option Nat) : Exec σ (Option Nat) := do
  let pid ← curproc_p_pid k
  KASSERT (pid == h.PID_INIT) "curproc->p_pid == PID_INIT"
  if DO_KTEST then proctest_main k
  if cfg.VFS then
    (do vfs_init k
        make_devices h cfg k)
  if cfg.DRIVERS then
    (do if DO_KTEST then driverstest_main k)
  if cfg.VM then
    (do if DO_KTEST then vmtest_main k
        kernel_execve k "/sbin/init" [] [])
  return none

/-- The routine `initproc_start`.  The C string `"init\0"` passed to `proc_create`
is the name `init`. -/
def initproc_start (h : Headers) (k : Kernel σ) : Exec σ Unit := do
  let init_proc ← proc_create k "init"
  match init_proc with
  | none => panic "failed to create init process\n"
  | some init_proc =>
    KASSERT (init_proc.p_pid == h.PID_INIT) "init_proc->p_pid == PID_INIT"
    let init_thr ← kthread_create k init_proc .initproc_run 0 none
    match init_thr with
    | none => panic "failed to create init"
    | some init_thr =>
      sched_make_runnable k init_thr
      context_make_active k

/-- The routine `kmain`. -/
def kmain (h : Headers) (cfg : Config) (k : Kernel σ) : Exec σ Unit := do
  kmain_loop k (init_funcs cfg) 0
  initproc_start h k
  panic "\nReturned to kmain()\n"

/-- The loop `while (1) { __asm__ volatile("cli; hlt;"); }` of `initproc_finish`.
Its condition is the constant `1` and its body has no `break`, so the loop has no
exit; `rounds` is the number of rounds that are observed, after which the
processor is still inside the loop. -/
def halt_loop : Nat → Exec σ Unit
  | 0 => fun w => ⟨[], w, .stopped .spinning⟩
  | rounds + 1 => do
      Exec.emit .cli_hlt () id
      halt_loop rounds

/-- The routine `initproc_finish`, observed for `rounds` rounds of its halt loop. -/
def initproc_finish (cfg : Config) (k : Kernel σ) (rounds : Nat) : Exec σ Unit := do
  if cfg.VFS then
    (do let failed ← vfs_shutdown k
        if failed != 0 then panic "vfs shutdown FAILED!!\n")
  if cfg.DRIVERS then screen_print_shutdown k
  halt_loop rounds
  panic "should not get here"

end routines


/-! ## A concrete kernel world, from the specification -/

/-- An entry of the device namespace: a directory, or a device node with its
kind (`mode`) and device identifier. -/
inductive Node
  | dir (path : String)
  | dev (path : String) (mode : Nat) (devid : Nat)
deriving DecidableEq, Repr

/-- The path of a namespace entry. -/
def Node.path : Node → String
  | .dir p => p
  | .dev p _ _ => p

/-- A child of the init process: its pid, and whether it is still runnable. -/
structure Child where
  pid : Int
  runnable : Bool
deriving DecidableEq, Repr

/-- Modelled from the spec: the kernel state that the collaborators of `kmain.c`
own and that the claims speak about, namely the entries of the filesystem
namespace (in creation order) and the children of the init process. -/
structure World where
  nodes : List Node
  children : List Child
deriving DecidableEq, Repr

/-- The paths present in the namespace. -/
def World.paths (w : World) : List String := w.nodes.map Node.path

/-- Modelled from the spec: `do_mkdir` of `fs/vfs_syscall.c`, which is not part of
the source under study.  `mkdir(path) → success | already-exists`: on an existing
path it reports `-EEXIST` and changes nothing, otherwise it adds the directory
and reports 0. -/
def spec_do_mkdir (h : Headers) (path : String) (w : World) : Int × World :=
  if path ∈ w.paths then (-h.EEXIST, w)
  else (0, { w with nodes := w.nodes ++ [.dir path] })

/-- Modelled from the spec: `do_mknod` of `fs/vfs_syscall.c`, which is not part of
the source under study.  `make_device_node(path, kind, device_id) → success |
already-exists`: on an existing path it reports `-EEXIST` and changes nothing,
otherwise it adds the device node and reports 0. -/
def spec_do_mknod (h : Headers) (path : String) (mode devid : Nat) (w : World) : Int × World :=
  if path ∈ w.paths then (-h.EEXIST, w)
  else (0, { w with nodes := w.nodes ++ [.dev path mode devid] })

/-- Modelled from the spec: a kernel in which every collaborator behaves as the
specification describes its normal case.  Creation of the init process yields pid
`PID_INIT`, thread creation succeeds, scheduler activation and program
replacement never return, the filesystem calls are `spec_do_mkdir` and
`spec_do_mknod`, and `vfs_shutdown` succeeds. -/
def specKernel (h : Headers) : Kernel World where
  run_init := fun _ w => w
  proc_create := fun _ w => (some ⟨h.PID_INIT⟩, w)
  kthread_create := fun _ _ _ _ w => (some ⟨0⟩, w)
  sched_make_runnable := fun _ w => w
  context_make_active := fun _ => none
  curproc_pid := fun _ => h.PID_INIT
  proctest_main := fun w => w
  driverstest_main := fun w => w
  vmtest_main := fun w => w
  vfs_init := fun w => w
  do_mkdir := spec_do_mkdir h
  do_mknod := spec_do_mknod h
  kernel_execve := fun _ _ _ _ => none
  vfs_shutdown := fun w => (0, w)
  screen_print_shutdown := fun w => w

/-- Sample values for the header constants, used to evaluate the routines on
concrete inputs: `EEXIST = 17`, `PID_INIT = 1`, and a device identifier that
packs the class above an 8-bit index. -/
def sampleHeaders : Headers where
  EEXIST := 17
  EEXIST_pos := by decide
  PID_INIT := 1
  S_IFCHR := 0x0100
  S_IFBLK := 0x0400
  MEM_NULL_DEVID := 0x0100
  MEM_ZERO_DEVID := 0x0101
  TTY_MAJOR := 2
  DISK_MAJOR := 1
  MKDEVID := fun major minor => major * 256 + minor.toNat

/-- The empty world: an initialized filesystem without entries, no children. -/
def World.empty : World := ⟨[], []⟩

/-! ## Vocabulary for the statements -/

/-- The world after running the initializers of `tbl` from `w`, in order. -/
def after_inits {σ : Type} (k : Kernel σ) (tbl : List init_func_t) (w : σ) : σ :=
  tbl.foldl (fun w f => k.run_init f w) w

/-- The initializer calls of a trace, in order. -/
def init_calls (tr : List Event) : List init_func_t :=
  tr.filterMap (fun e => match e with
    | .init f => some f
    | _ => none)

/-- Is the event a call of `proc_create`? -/
def Event.is_proc_create : Event → Bool
  | .proc_create _ _ => true
  | _ => false

/-- Is the event a call of `kthread_create`? -/
def Event.is_kthread_create : Event → Bool
  | .kthread_create _ _ _ _ _ => true
  | _ => false

/-- Is the event a call of `sched_make_runnable`? -/
def Event.is_sched_make_runnable : Event → Bool
  | .sched_make_runnable _ => true
  | _ => false

/-- Is the event a call of `context_make_active`? -/
def Event.is_context_make_active : Event → Bool
  | .context_make_active => true
  | _ => false

/-- Is the event a `panic`? -/
def Event.is_panic : Event → Bool
  | .panic _ => true
  | _ => false

/-- Is the event a call of one of the diagnostic suites (`proctest_main`,
`driverstest_main`, `vmtest_main`)? -/
def Event.is_diagnostic : Event → Bool
  | .proctest_main => true
  | .driverstest_main => true
  | .vmtest_main => true
  | _ => false

/-- Is the event a creation call (`do_mkdir` or `do_mknod`)? -/
def Event.is_creation : Event → Bool
  | .do_mkdir _ _ => true
  | .do_mknod _ _ _ _ => true
  | _ => false

/-- The status returned by a creation call. -/
def Event.status : Event → Option Int
  | .do_mkdir _ s => some s
  | .do_mknod _ _ _ s => some s
  | _ => none

/-- In the list `l`, both `a` and `b` occur and `a` comes first. -/
def comes_before {α : Type} [DecidableEq α] (a b : α) (l : List α) : Prop :=
  a ∈ l ∧ b ∈ l ∧ l.indexOf a < l.indexOf b

instance {α : Type} [DecidableEq α] (a b : α) (l : List α) : Decidable (comes_before a b l) :=
  inferInstanceAs (Decidable (a ∈ l ∧ b ∈ l ∧ l.indexOf a < l.indexOf b))

/-- The kernel of the specification, except that `proc_create` fails. -/
def noProcKernel (h : Headers) : Kernel World :=
  { specKernel h with proc_create := fun _ w => (none, w) }

/-- The kernel of the specification, except that `proc_create` hands out a pid
other than `PID_INIT`. -/
def wrongPidKernel (h : Headers) : Kernel World :=
  { specKernel h with proc_create := fun _ w => (some ⟨h.PID_INIT + 1⟩, w) }

/-- The kernel of the specification, except that `kthread_create` fails. -/
def noThreadKernel (h : Headers) : Kernel World :=
  { specKernel h with kthread_create := fun _ _ _ _ w => (none, w) }

/-- The run stopped in a `panic`, whose message is the last event of its trace. -/
def Res.panicked {σ α : Type} (r : Res σ α) : Bool :=
  match r.out with
  | .stopped (.panicked msg) => decide (r.trace.getLast? = some (.panic msg))
  | _ => false

/-! ### Creation requests

`make_devices` is a straight line of creation calls, each followed by the same
check.  The definitions below describe such a line as a list, so that the loops
of the source can be compared with it. -/

/-- A creation request: the arguments of one `do_mkdir` or `do_mknod` call. -/
inductive Req
  | mkdir (path : String)
  | mknod (path : String) (mode : Nat) (devid : Nat)
deriving DecidableEq, Repr

/-- The path a request is about. -/
def Req.path : Req → String
  | .mkdir p => p
  | .mknod p _ _ => p

/-- The namespace entry a successful request creates. -/
def Req.node : Req → Node
  | .mkdir p => .dir p
  | .mknod p mode devid => .dev p mode devid

/-- The event of a request that returned `status`. -/
def Req.event (r : Req) (status : Int) : Event :=
  match r with
  | .mkdir p => .do_mkdir p status
  | .mknod p mode devid => .do_mknod p mode devid status

/-- Issue one request: the corresponding call of `do_mkdir` or `do_mknod`. -/
def Req.issue {σ : Type} (k : Kernel σ) : Req → Exec σ Int
  | .mkdir p => do_mkdir k p
  | .mknod p mode devid => do_mknod k p mode devid

/-- Issue the requests in order, each followed by
`KASSERT(!status || status == -EEXIST)`. -/
def run_requests {σ : Type} (h : Headers) (k : Kernel σ) : List Req → Exec σ Unit
  | [] => pure ()
  | r :: rs => do
      let status ← r.issue k
      KASSERT (status_ok h status) "!status || status == -EEXIST"
      run_requests h k rs

/-- The requests of `make_devices`, in program order: `/dev`, `/dev/null`,
`/dev/zero`, then one per round of the terminal loop and one per round of the disk
loop, with the paths as `snprintf` leaves them in the 32-byte buffer. -/
def device_requests (h : Headers) (cfg : Config) : List Req :=
  [.mkdir "/dev",
   .mknod "/dev/null" h.S_IFCHR h.MEM_NULL_DEVID,
   .mknod "/dev/zero" h.S_IFCHR h.MEM_ZERO_DEVID]
  ++ (List.range cfg.NTERMS.toNat).map (fun (j : Nat) =>
      Req.mknod (snprintf 32 ("/dev/tty" ++ fmt_ld (0 + (j : Int)))) h.S_IFCHR
        (h.MKDEVID h.TTY_MAJOR (0 + (j : Int))))
  ++ (List.range cfg.NDISKS.toNat).map (fun (j : Nat) =>
      Req.mknod (snprintf 32 ("/dev/hda" ++ fmt_ld (0 + (j : Int)))) h.S_IFBLK
        (h.MKDEVID h.DISK_MAJOR (0 + (j : Int))))

/-- What the kernel answers to a request: the status and the world it leaves. -/
def Req.result {σ : Type} (k : Kernel σ) : Req → σ → Int × σ
  | .mkdir p => k.do_mkdir p
  | .mknod p mode devid => k.do_mknod p mode devid

/-- The message of the failed check in `make_devices`. -/
def creation_check_failed : String := "assertion failed: !status || status == -EEXIST"

/-- The configuration of the specification scenario: every capability enabled, 4
terminals, 2 disks. -/
def scenarioConfig : Config := ⟨true, true, true, true, 4, 2⟩

/-- Is the event a call of `kernel_execve`? -/
def Event.is_kernel_execve : Event → Bool
  | .kernel_execve _ _ _ => true
  | _ => false

/-- The kernel of the specification, except that `do_mkdir` fails with status
`-12` (out of memory). -/
def failingMkdirKernel (h : Headers) : Kernel World :=
  { specKernel h with do_mkdir := fun _ w => (-12, w) }

/-- The kernel of the specification, except that the current process is not the
init process. -/
def notInitKernel (h : Headers) : Kernel World :=
  { specKernel h with curproc_pid := fun _ => h.PID_INIT + 1 }

section basics
variable {σ α β : Type}

theorem Exec.bind_def (m : Exec σ α) (f : α → Exec σ β) : (m >>= f) = Exec.seq m f := rfl

theorem Exec.pure_def (a : α) : (pure a : Exec σ α) = Exec.ret a := rfl

theorem Exec.seq_returned (m : Exec σ α) (f : α → Exec σ β) (w : σ) (a : α)
    (hm : (m w).out = .returned a) :
    Exec.seq m f w = ⟨(m w).trace ++ (f a (m w).world).trace, (f a (m w).world).world,
      (f a (m w).world).out⟩ := by
  simp [Exec.seq, hm]

theorem Exec.seq_stopped (m : Exec σ α) (f : α → Exec σ β) (w : σ) (why : Stop)
    (hm : (m w).out = .stopped why) :
    Exec.seq m f w = ⟨(m w).trace, (m w).world, .stopped why⟩ := by
  simp [Exec.seq, hm]

theorem kmain_loop_eq (k : Kernel σ) (tbl : List init_func_t) :
    ∀ (n i : Nat) (w : σ), tbl.length - i = n →
      kmain_loop k tbl i w =
        ⟨(tbl.drop i).map Event.init, after_inits k (tbl.drop i) w, .returned ()⟩ := by
  intro n
  induction n with
  | zero =>
    intro i w hn
    have hle : tbl.length ≤ i := by omega
    rw [kmain_loop]
    simp [Nat.not_lt.mpr hle, List.drop_eq_nil_of_le hle, Exec.pure_def, Exec.ret, after_inits]
  | succ n ih =>
    intro i w hn
    have hlt : i < tbl.length := by omega
    rw [kmain_loop]
    simp only [hlt, dite_true, Exec.bind_def]
    rw [Exec.seq_returned _ _ _ () (by simp [call_init, Exec.emit])]
    rw [ih (i + 1) _ (by omega)]
    rw [List.drop_eq_getElem_cons hlt]
    simp only [call_init, Exec.emit, after_inits, List.map_cons, List.foldl_cons,
      List.singleton_append, List.get_eq_getElem]

end basics

/-! ## `initproc_start` -/

section start
variable {σ : Type}

theorem initproc_start_no_proc (h : Headers) (k : Kernel σ) (w : σ)
    (hp : (k.proc_create "init" w).1 = none) :
    initproc_start h k w =
      ⟨[.proc_create "init" none, .panic "failed to create init process\n"],
        (k.proc_create "init" w).2, .stopped (.panicked "failed to create init process\n")⟩ := by
  simp [initproc_start, Exec.bind_def, Exec.seq, proc_create, panic, Exec.halt, hp]

theorem initproc_start_bad_pid (h : Headers) (k : Kernel σ) (w : σ) (p : proc_t)
    (hp : (k.proc_create "init" w).1 = some p) (hpid : p.p_pid ≠ h.PID_INIT) :
    initproc_start h k w =
      ⟨[.proc_create "init" (some p),
          .panic "assertion failed: init_proc->p_pid == PID_INIT"],
        (k.proc_create "init" w).2,
        .stopped (.panicked "assertion failed: init_proc->p_pid == PID_INIT")⟩ := by
  simp [initproc_start, Exec.bind_def, Exec.seq, proc_create, KASSERT, panic, Exec.halt, hp,
    hpid]

theorem initproc_start_no_thread (h : Headers) (k : Kernel σ) (w : σ) (p : proc_t)
    (hp : (k.proc_create "init" w).1 = some p) (hpid : p.p_pid = h.PID_INIT)
    (ht : (k.kthread_create p .initproc_run 0 none (k.proc_create "init" w).2).1 = none) :
    initproc_start h k w =
      ⟨[.proc_create "init" (some p), .kthread_create p .initproc_run 0 none none,
          .panic "failed to create init"],
        (k.kthread_create p .initproc_run 0 none (k.proc_create "init" w).2).2,
        .stopped (.panicked "failed to create init")⟩ := by
  simp [initproc_start, Exec.bind_def, Exec.seq, proc_create, kthread_create, KASSERT, panic,
    Exec.halt, hp, hpid, ht, Exec.pure_def, Exec.ret]

theorem initproc_start_trace_ok (h : Headers) (k : Kernel σ) (w : σ) (p : proc_t)
    (thr : kthread_t)
    (hp : (k.proc_create "init" w).1 = some p) (hpid : p.p_pid = h.PID_INIT)
    (ht : (k.kthread_create p .initproc_run 0 none (k.proc_create "init" w).2).1 = some thr) :
    (initproc_start h k w).trace =
      [.proc_create "init" (some p), .kthread_create p .initproc_run 0 none (some thr),
        .sched_make_runnable thr, .context_make_active] := by
  simp only [initproc_start, Exec.bind_def, Exec.seq, proc_create, kthread_create, KASSERT,
    Exec.halt, hp, hpid, ht, Exec.pure_def, Exec.ret, sched_make_runnable, Exec.emit,
    context_make_active, beq_self_eq_true, if_true]
  cases k.context_make_active
      (k.sched_make_runnable thr
        (k.kthread_create p .initproc_run 0 none (k.proc_create "init" w).2).2) <;> simp

theorem initproc_start_head (h : Headers) (k : Kernel σ) (w : σ) :
    ∃ rest, (initproc_start h k w).trace =
      Event.proc_create "init" (k.proc_create "init" w).1 :: rest := by
  simp only [initproc_start, Exec.bind_def, Exec.seq, proc_create]
  exact ⟨_, rfl⟩

/-- The four ways `initproc_start` can run, as a case distinction on what
`proc_create` and `kthread_create` return. -/
theorem initproc_start_cases (h : Headers) (k : Kernel σ) (w : σ) :
    ((initproc_start h k w).trace =
        [.proc_create "init" none, .panic "failed to create init process\n"] ∧
      (initproc_start h k w).out = .stopped (.panicked "failed to create init process\n")) ∨
    (∃ p, p.p_pid ≠ h.PID_INIT ∧
      (initproc_start h k w).trace =
        [.proc_create "init" (some p),
          .panic "assertion failed: init_proc->p_pid == PID_INIT"] ∧
      (initproc_start h k w).out =
        .stopped (.panicked "assertion failed: init_proc->p_pid == PID_INIT")) ∨
    (∃ p, p.p_pid = h.PID_INIT ∧
      (initproc_start h k w).trace =
        [.proc_create "init" (some p), .kthread_create p .initproc_run 0 none none,
          .panic "failed to create init"] ∧
      (initproc_start h k w).out = .stopped (.panicked "failed to create init")) ∨
    (∃ p thr, p.p_pid = h.PID_INIT ∧
      (initproc_start h k w).trace =
        [.proc_create "init" (some p), .kthread_create p .initproc_run 0 none (some thr),
          .sched_make_runnable thr, .context_make_active]) := by
  cases hp : (k.proc_create "init" w).1 with
  | none =>
    left
    rw [initproc_start_no_proc h k w hp]
    exact ⟨rfl, rfl⟩
  | some p =>
    by_cases hpid : p.p_pid = h.PID_INIT
    · cases ht : (k.kthread_create p .initproc_run 0 none (k.proc_create "init" w).2).1 with
      | none =>
        right; right; left
        rw [initproc_start_no_thread h k w p hp hpid ht]
        exact ⟨p, hpid, rfl, rfl⟩
      | some thr =>
        right; right; right
        exact ⟨p, thr, hpid, initproc_start_trace_ok h k w p thr hp hpid ht⟩
    · right; left
      rw [initproc_start_bad_pid h k w p hp hpid]
      exact ⟨p, hpid, rfl, rfl⟩

theorem initproc_start_no_init (h : Headers) (k : Kernel σ) (w : σ) :
    init_calls (initproc_start h k w).trace = [] := by
  rcases initproc_start_cases h k w with ⟨ht, _⟩ | ⟨p, _, ht, _⟩ | ⟨p, _, ht, _⟩ | ⟨p, thr, _, ht⟩ <;>
    rw [ht] <;> rfl

end start

/-! ## `kmain` and the initializer table -/

section boot
variable {σ : Type}

theorem init_calls_map_init (l : List init_func_t) : init_calls (l.map Event.init) = l := by
  induction l with
  | nil => rfl
  | cons a l ih => simp [init_calls] at ih ⊢; exact ih

theorem init_calls_append (l1 l2 : List Event) :
    init_calls (l1 ++ l2) = init_calls l1 ++ init_calls l2 := by
  simp [init_calls]

/-- What `kmain` does: the table, then `initproc_start`, then the final panic if
`initproc_start` returns. -/
theorem kmain_trace (h : Headers) (cfg : Config) (k : Kernel σ) (w : σ) :
    (kmain h cfg k w).trace =
      (init_funcs cfg).map Event.init
        ++ (initproc_start h k (after_inits k (init_funcs cfg) w)).trace
        ++ (match (initproc_start h k (after_inits k (init_funcs cfg) w)).out with
            | .returned _ => [Event.panic "\nReturned to kmain()\n"]
            | .stopped _ => []) := by
  have hl := kmain_loop_eq k (init_funcs cfg) _ 0 w rfl
  simp only [List.drop_zero] at hl
  simp only [kmain, Exec.bind_def]
  rw [Exec.seq_returned _ _ _ () (by rw [hl])]
  rw [hl]
  simp only [Exec.seq]
  cases (initproc_start h k (after_inits k (init_funcs cfg) w)).out <;>
    simp [panic, Exec.halt]

/-- The table depends on the three flags `VM`, `DRIVERS`, `SMP` only. -/
theorem init_funcs_flags (cfg : Config) :
    init_funcs cfg = init_funcs ⟨cfg.VM, cfg.DRIVERS, cfg.SMP, false, 0, 0⟩ := rfl

theorem init_funcs_nodup (cfg : Config) : (init_funcs cfg).Nodup := by
  have key : ∀ vm dr smp : Bool, (init_funcs ⟨vm, dr, smp, false, 0, 0⟩).Nodup := by decide
  rw [init_funcs_flags]
  exact key _ _ _

end boot

/-! ## `initproc_finish` -/

section finish
variable {σ : Type}

/-- The halt loop never exits: after any number of observed rounds the trace is
that many `cli; hlt` rounds and the processor is still inside the loop. -/
theorem halt_loop_eq (rounds : Nat) (w : σ) :
    (halt_loop rounds : Exec σ Unit) w =
      ⟨List.replicate rounds .cli_hlt, w, .stopped .spinning⟩ := by
  induction rounds with
  | zero => rfl
  | succ n ih =>
    simp only [halt_loop, Exec.bind_def]
    rw [Exec.seq_returned _ _ _ () (by simp [Exec.emit])]
    simp only [Exec.emit, id, ih]
    simp [List.replicate_succ]

theorem initproc_finish_eq (cfg : Config) (k : Kernel σ) (rounds : Nat) (w : σ) :
    initproc_finish cfg k rounds w =
      if cfg.VFS = true ∧ (k.vfs_shutdown w).1 ≠ 0 then
        ⟨[.vfs_shutdown (k.vfs_shutdown w).1, .panic "vfs shutdown FAILED!!\n"],
          (k.vfs_shutdown w).2, .stopped (.panicked "vfs shutdown FAILED!!\n")⟩
      else
        ⟨(if cfg.VFS = true then [.vfs_shutdown 0] else [])
            ++ (if cfg.DRIVERS = true then [.screen_print_shutdown] else [])
            ++ List.replicate rounds .cli_hlt,
          (if cfg.DRIVERS = true then k.screen_print_shutdown else id)
            ((if cfg.VFS = true then (k.vfs_shutdown w).2 else w)),
          .stopped .spinning⟩ := by
  rcases cfg with ⟨vm, dr, smp, vfs, nt, nd⟩
  by_cases hs : (k.vfs_shutdown w).1 = 0 <;> cases vfs <;> cases dr <;>
    simp [initproc_finish, Exec.bind_def, Exec.seq, Exec.pure_def, Exec.ret, vfs_shutdown,
      screen_print_shutdown, Exec.emit, panic, Exec.halt, halt_loop_eq, hs]

end finish

/-! ## `make_devices` -/

section devices
variable {σ : Type}

theorem Exec.seq_assoc {α β γ : Type} (m : Exec σ α) (f : α → Exec σ β) (g : β → Exec σ γ) :
    Exec.seq (Exec.seq m f) g = Exec.seq m (fun a => Exec.seq (f a) g) := by
  funext w
  simp only [Exec.seq]
  cases hm : (m w).out with
  | stopped why => simp
  | returned a =>
    simp only
    cases hf : (f a (m w).world).out with
    | stopped why => simp
    | returned b => simp [List.append_assoc]

theorem Exec.ret_seq {α β : Type} (a : α) (f : α → Exec σ β) :
    Exec.seq (Exec.ret a) f = f a := by
  funext w
  simp [Exec.seq, Exec.ret]

theorem Exec.seq_ret {α : Type} (m : Exec σ α) : Exec.seq m Exec.ret = m := by
  funext w
  simp only [Exec.seq, Exec.ret]
  cases hm : (m w).out with
  | stopped why =>
    simp only
    rw [← hm]
  | returned a =>
    simp only [List.append_nil]
    rw [← hm]

theorem run_requests_append (h : Headers) (k : Kernel σ) (l1 l2 : List Req) :
    run_requests h k (l1 ++ l2) =
      Exec.seq (run_requests h k l1) (fun _ => run_requests h k l2) := by
  induction l1 with
  | nil => simp [run_requests, Exec.pure_def, Exec.ret_seq]
  | cons r rs ih =>
    simp only [List.cons_append, run_requests, Exec.bind_def, Exec.seq_assoc]
    simp only [List.append_eq, ih]

/-- A loop `for (long i = ...; i < n; i++)` whose body is one checked `do_mknod`
call issues the requests of its rounds in order. -/
theorem for_long_mknod (h : Headers) (k : Kernel σ) (n : Int) (path : Int → String)
    (mode : Nat) (devid : Int → Nat) :
    ∀ (m : Nat) (i : Int), (n - i).toNat = m →
      for_long n (fun i => do
          let status ← do_mknod k (path i) mode (devid i)
          KASSERT (status_ok h status) "!status || status == -EEXIST") i =
        run_requests h k
          ((List.range m).map (fun (j : Nat) => Req.mknod (path (i + (j : Int))) mode
            (devid (i + (j : Int))))) := by
  intro m
  induction m with
  | zero =>
    intro i hm
    have hle : ¬ i < n := by omega
    rw [for_long]
    simp [hle, run_requests]
  | succ m ih =>
    intro i hm
    have hlt : i < n := by omega
    rw [for_long]
    simp only [hlt, if_true]
    rw [ih (i + 1) (by omega)]
    have key : (List.range (m + 1)).map (fun (j : Nat) => Req.mknod (path (i + (j : Int))) mode
          (devid (i + (j : Int)))) =
        Req.mknod (path i) mode (devid i) ::
          (List.range m).map (fun (j : Nat) => Req.mknod (path (i + 1 + (j : Int))) mode
            (devid (i + 1 + (j : Int)))) := by
      rw [List.range_succ_eq_map]
      simp only [List.map_cons, List.map_map, Nat.cast_zero, add_zero, List.cons.injEq,
        true_and]
      apply List.map_congr_left
      intro j _
      have e : i + ((j + 1 : Nat) : Int) = i + 1 + (j : Int) := by push_cast; ring
      simp only [Function.comp, Nat.succ_eq_add_one, e]
    rw [key]
    simp only [run_requests, Exec.bind_def, Exec.seq_assoc, Req.issue]

/-- The routine `make_devices` issues exactly the requests `device_requests`, in
order, with the check after each. -/
theorem make_devices_eq (h : Headers) (cfg : Config) (k : Kernel σ) :
    make_devices h cfg k = run_requests h k (device_requests h cfg) := by
  simp only [make_devices, device_requests, run_requests_append]
  rw [for_long_mknod h k cfg.NTERMS _ _ _ cfg.NTERMS.toNat 0 (by simp),
    for_long_mknod h k cfg.NDISKS _ _ _ cfg.NDISKS.toNat 0 (by simp)]
  simp only [run_requests, Exec.bind_def, Exec.seq_assoc, Req.issue, Exec.pure_def,
    Exec.ret_seq]

theorem status_ok_iff (h : Headers) (s : Int) :
    status_ok h s = true ↔ (s = 0 ∨ s = -h.EEXIST) := by
  simp [status_ok]

theorem Req.issue_eq (k : Kernel σ) (r : Req) (w : σ) :
    r.issue k w = ⟨[r.event (r.result k w).1], (r.result k w).2, .returned (r.result k w).1⟩ := by
  cases r <;> rfl

theorem Req.event_status (r : Req) (s : Int) : (r.event s).status = some s := by
  cases r <;> rfl

theorem run_requests_cons_ok (h : Headers) (k : Kernel σ) (r : Req) (rs : List Req) (w : σ)
    (hok : status_ok h (r.result k w).1 = true) :
    run_requests h k (r :: rs) w =
      ⟨r.event (r.result k w).1 :: (run_requests h k rs (r.result k w).2).trace,
        (run_requests h k rs (r.result k w).2).world,
        (run_requests h k rs (r.result k w).2).out⟩ := by
  simp [run_requests, Exec.bind_def, Exec.seq, Req.issue_eq, KASSERT, hok, Exec.pure_def,
    Exec.ret]

theorem run_requests_cons_bad (h : Headers) (k : Kernel σ) (r : Req) (rs : List Req) (w : σ)
    (hbad : status_ok h (r.result k w).1 = false) :
    run_requests h k (r :: rs) w =
      ⟨[r.event (r.result k w).1, .panic creation_check_failed], (r.result k w).2,
        .stopped (.panicked creation_check_failed)⟩ := by
  simp [run_requests, Exec.bind_def, Exec.seq, Req.issue_eq, KASSERT, hbad, panic, Exec.halt,
    creation_check_failed]

/-- The shape of every run of a line of checked creation calls: the calls `done`
all passed the check; either they are all the requests and the line completed, or
the next request `q` returned a status `s` that fails the check, the run panicked
right there, and the remaining requests `rest` were never issued. -/
theorem run_requests_shape (h : Headers) (k : Kernel σ) :
    ∀ (reqs : List Req) (w : σ), ∃ done : List (Req × Int),
      (∀ x ∈ done, status_ok h x.2 = true) ∧
      (((run_requests h k reqs w).out = .returned () ∧
          done.map Prod.fst = reqs ∧
          (run_requests h k reqs w).trace = done.map (fun x => x.1.event x.2)) ∨
        (∃ q s rest, status_ok h s = false ∧
          reqs = done.map Prod.fst ++ q :: rest ∧
          (run_requests h k reqs w).trace =
            done.map (fun x => x.1.event x.2) ++ [q.event s, .panic creation_check_failed] ∧
          (run_requests h k reqs w).out = .stopped (.panicked creation_check_failed))) := by
  intro reqs
  induction reqs with
  | nil =>
    intro w
    exact ⟨[], by simp, Or.inl ⟨rfl, rfl, rfl⟩⟩
  | cons r rs ih =>
    intro w
    cases hok : status_ok h (r.result k w).1 with
    | false =>
      refine ⟨[], by simp, Or.inr ⟨r, (r.result k w).1, rs, hok, rfl, ?_, ?_⟩⟩
      · rw [run_requests_cons_bad h k r rs w hok]; rfl
      · rw [run_requests_cons_bad h k r rs w hok]
    | true =>
      obtain ⟨done, hdone, hcase⟩ := ih (r.result k w).2
      refine ⟨(r, (r.result k w).1) :: done, ?_, ?_⟩
      · intro x hx
        rcases List.mem_cons.mp hx with rfl | hx
        · exact hok
        · exact hdone x hx
      · rw [run_requests_cons_ok h k r rs w hok]
        rcases hcase with ⟨ho, hreqs, htr⟩ | ⟨q, s, rest, hs, hreqs, htr, ho⟩
        · left
          exact ⟨ho, by simp [hreqs], by simp [htr]⟩
        · right
          exact ⟨q, s, rest, hs, by simp [hreqs], by simp [htr], ho⟩

/-- A line of checked creation calls completes exactly when every status it saw
passes the check. -/
theorem run_requests_returned_iff (h : Headers) (k : Kernel σ) (reqs : List Req) (w : σ) :
    (run_requests h k reqs w).out = .returned () ↔
      ∀ e ∈ (run_requests h k reqs w).trace, ∀ s, e.status = some s →
        status_ok h s = true := by
  obtain ⟨done, hdone, hcase⟩ := run_requests_shape h k reqs w
  rcases hcase with ⟨ho, _, htr⟩ | ⟨q, s, rest, hs, _, htr, ho⟩
  · refine ⟨fun _ => ?_, fun _ => ho⟩
    intro e he s hes
    rw [htr] at he
    obtain ⟨x, hx, rfl⟩ := List.mem_map.mp he
    rw [Req.event_status] at hes
    cases hes
    exact hdone x hx
  · constructor
    · intro hret
      rw [ho] at hret
      cases hret
    · intro hall
      have hmem : q.event s ∈ (run_requests h k reqs w).trace := by
        rw [htr]; simp
      have := hall _ hmem s (Req.event_status q s)
      rw [hs] at this
      cases this

end devices

/-! ## Decimal numerals and the path buffer -/

section numerals

end numerals

/-! ## `make_devices` on the filesystem of the specification -/

section specfs

theorem spec_result (h : Headers) (r : Req) (w : World) :
    r.result (specKernel h) w =
      if r.path ∈ w.paths then (-h.EEXIST, w)
      else (0, { w with nodes := w.nodes ++ [r.node] }) := by
  cases r <;> rfl

theorem status_ok_zero (h : Headers) : status_ok h 0 = true := by
  simp [status_ok]

theorem status_ok_eexist (h : Headers) : status_ok h (-h.EEXIST) = true := by
  simp [status_ok]

theorem Req.node_path (r : Req) : r.node.path = r.path := by
  cases r <;> rfl

/-- When every requested path is already present, every call reports `-EEXIST`
and the world is left as it was. -/
theorem run_requests_all_present (h : Headers) (reqs : List Req) (w : World)
    (hp : ∀ r ∈ reqs, r.path ∈ w.paths) :
    run_requests h (specKernel h) reqs w =
      ⟨reqs.map (fun r => r.event (-h.EEXIST)), w, .returned ()⟩ := by
  induction reqs with
  | nil => rfl
  | cons r rs ih =>
    have hr : r.path ∈ w.paths := hp r (List.mem_cons_self _ _)
    have hres : r.result (specKernel h) w = (-h.EEXIST, w) := by
      rw [spec_result, if_pos hr]
    rw [run_requests_cons_ok h _ r rs w (by rw [hres]; exact status_ok_eexist h)]
    rw [hres]
    simp only
    rw [ih (fun q hq => hp q (List.mem_cons_of_mem _ hq))]
    rfl

/-- On the filesystem of the specification a line of creation calls always
completes; it keeps every path that was present and afterwards every requested
path is present. -/
theorem run_requests_spec_completes (h : Headers) (reqs : List Req) :
    ∀ w : World,
      (run_requests h (specKernel h) reqs w).out = .returned () ∧
      (∀ p ∈ w.paths, p ∈ (run_requests h (specKernel h) reqs w).world.paths) ∧
      (∀ r ∈ reqs, r.path ∈ (run_requests h (specKernel h) reqs w).world.paths) := by
  induction reqs with
  | nil =>
    intro w
    exact ⟨rfl, fun p hp => hp, by simp⟩
  | cons r rs ih =>
    intro w
    by_cases hr : r.path ∈ w.paths
    · have hres : r.result (specKernel h) w = (-h.EEXIST, w) := by
        rw [spec_result, if_pos hr]
      rw [run_requests_cons_ok h _ r rs w (by rw [hres]; exact status_ok_eexist h), hres]
      obtain ⟨ho, hkeep, hall⟩ := ih w
      refine ⟨ho, hkeep, ?_⟩
      intro q hq
      rcases List.mem_cons.mp hq with rfl | hq
      · exact hkeep _ hr
      · exact hall q hq
    · have hres : r.result (specKernel h) w = (0, { w with nodes := w.nodes ++ [r.node] }) := by
        rw [spec_result, if_neg hr]
      rw [run_requests_cons_ok h _ r rs w (by rw [hres]; exact status_ok_zero h), hres]
      obtain ⟨ho, hkeep, hall⟩ := ih { w with nodes := w.nodes ++ [r.node] }
      have hgrow : ∀ p ∈ w.paths, p ∈ World.paths { w with nodes := w.nodes ++ [r.node] } := by
        intro p hp
        simp only [World.paths, List.map_append, List.mem_append]
        exact Or.inl hp
      have hnew : r.path ∈ World.paths { w with nodes := w.nodes ++ [r.node] } := by
        simp [World.paths, Req.node_path]
      refine ⟨ho, fun p hp => hkeep p (hgrow p hp), ?_⟩
      intro q hq
      rcases List.mem_cons.mp hq with rfl | hq
      · exact hkeep _ hnew
      · exact hall q hq

end specfs

/-! ## The expected namespace entries -/

section expected

end expected

/-! ## `initproc_run` -/

section run
variable {σ : Type}

theorem kernel_execve_trace (k : Kernel σ) (f : String) (argv envp : List String) (w : σ) :
    (kernel_execve k f argv envp w).trace = [.kernel_execve f argv envp] := by
  unfold kernel_execve
  split <;> rfl

/-- The run of `initproc_run` when the entry assertion holds, in terms of the run
of `make_devices` and of what `kernel_execve` does. -/
theorem initproc_run_trace (h : Headers) (cfg : Config) (k : Kernel σ) (a1 : Int)
    (a2 : Option Nat) (w : σ) (hpid : k.curproc_pid w = h.PID_INIT)
    (hmd : cfg.VFS = true → (make_devices h cfg k (k.vfs_init w)).out = .returned ()) :
    (initproc_run h cfg k a1 a2 w).trace =
      (if cfg.VFS = true then Event.vfs_init :: (make_devices h cfg k (k.vfs_init w)).trace
        else [])
      ++ (if cfg.VM = true then [Event.kernel_execve "/sbin/init" [] []] else []) := by
  rcases cfg with ⟨vm, dr, smp, vfs, nt, nd⟩
  cases vfs
  · cases vm <;> cases dr <;>
      simp [initproc_run, Exec.bind_def, Exec.seq, curproc_p_pid, KASSERT, hpid, DO_KTEST,
        Exec.pure_def, Exec.ret] <;>
      split <;> simp [kernel_execve_trace]
  · have hmd2 := hmd rfl
    cases vm <;> cases dr <;>
      simp [initproc_run, Exec.bind_def, Exec.seq, curproc_p_pid, KASSERT, hpid, DO_KTEST,
        Exec.pure_def, Exec.ret, vfs_init, Exec.emit, hmd2] <;>
      split <;> simp [kernel_execve_trace]

theorem Req.event_is_creation (r : Req) (s : Int) : (r.event s).is_creation = true := by
  cases r <;> rfl

/-- A completed run of `make_devices` consists of creation calls only. -/
theorem make_devices_trace_creation (h : Headers) (cfg : Config) (k : Kernel σ) (w : σ)
    (hret : (make_devices h cfg k w).out = .returned ()) :
    ∀ e ∈ (make_devices h cfg k w).trace, e.is_creation = true := by
  rw [make_devices_eq] at hret ⊢
  obtain ⟨done, _, hcase⟩ := run_requests_shape h k (device_requests h cfg) w
  rcases hcase with ⟨_, _, htr⟩ | ⟨q, s, rest, _, _, _, ho⟩
  · intro e he
    rw [htr] at he
    obtain ⟨x, _, rfl⟩ := List.mem_map.mp he
    exact Req.event_is_creation _ _
  · rw [ho] at hret
    cases hret

end run


/-! ## The claims -/

section claims
variable {σ : Type}

/-- C1: for every capability configuration, `kmain` calls the entries of the
configured table `init_funcs` and no other initializer, each exactly once and in
table order (`dbg_init` first, `proc_idleproc_init` last), and all of these calls
come before `initproc_start` is entered (before its first action, the call of
`proc_create`); the entries under `#ifdef` are in the table exactly when their
flag is set. -/
theorem kmain_runs_configured_table (h : Headers) (cfg : Config) (k : Kernel σ) (w : σ) :
    init_calls (kmain h cfg k w).trace = init_funcs cfg ∧
    (∀ f, (init_calls (kmain h cfg k w).trace).count f = if f ∈ init_funcs cfg then 1 else 0) ∧
    (∃ ret rest, (kmain h cfg k w).trace =
        (init_funcs cfg).map Event.init ++ Event.proc_create "init" ret :: rest ∧
        init_calls rest = []) ∧
    (init_funcs cfg).head? = some .dbg_init ∧
    (init_funcs cfg).getLast? = some .proc_idleproc_init ∧
    (.anon_init ∈ init_funcs cfg ↔ cfg.VM = true) ∧
    (.shadow_init ∈ init_funcs cfg ↔ cfg.VM = true) ∧
    (.chardev_init ∈ init_funcs cfg ↔ cfg.DRIVERS = true) ∧
    (.blockdev_init ∈ init_funcs cfg ↔ cfg.DRIVERS = true) ∧
    (.smp_init ∈ init_funcs cfg ↔ cfg.SMP = true) := by
  have hcalls : init_calls (kmain h cfg k w).trace = init_funcs cfg := by
    rw [kmain_trace, init_calls_append, init_calls_append, init_calls_map_init,
      initproc_start_no_init]
    cases (initproc_start h k (after_inits k (init_funcs cfg) w)).out <;> simp [init_calls]
  have htable : ∀ vm dr smp : Bool,
      (init_funcs ⟨vm, dr, smp, false, 0, 0⟩).head? = some .dbg_init ∧
      (init_funcs ⟨vm, dr, smp, false, 0, 0⟩).getLast? = some .proc_idleproc_init ∧
      (.anon_init ∈ init_funcs ⟨vm, dr, smp, false, 0, 0⟩ ↔ vm = true) ∧
      (.shadow_init ∈ init_funcs ⟨vm, dr, smp, false, 0, 0⟩ ↔ vm = true) ∧
      (.chardev_init ∈ init_funcs ⟨vm, dr, smp, false, 0, 0⟩ ↔ dr = true) ∧
      (.blockdev_init ∈ init_funcs ⟨vm, dr, smp, false, 0, 0⟩ ↔ dr = true) ∧
      (.smp_init ∈ init_funcs ⟨vm, dr, smp, false, 0, 0⟩ ↔ smp = true) := by decide
  refine ⟨hcalls, ?_, ?_, ?_⟩
  · intro f
    rw [hcalls]
    exact List.count_eq_of_nodup (init_funcs_nodup cfg)
  · obtain ⟨rest, hrest⟩ := initproc_start_head h k (after_inits k (init_funcs cfg) w)
    refine ⟨(k.proc_create "init" (after_inits k (init_funcs cfg) w)).1,
      rest ++ (match (initproc_start h k (after_inits k (init_funcs cfg) w)).out with
            | .returned _ => [Event.panic "\nReturned to kmain()\n"]
            | .stopped _ => []), ?_, ?_⟩
    · rw [kmain_trace, hrest]
      simp
    · have hno := initproc_start_no_init h k (after_inits k (init_funcs cfg) w)
      rw [hrest] at hno
      rw [init_calls_append]
      have h1 : init_calls rest = [] := by
        simpa [init_calls] using hno
      rw [h1]
      cases (initproc_start h k (after_inits k (init_funcs cfg) w)).out <;> simp [init_calls]
  · rw [init_funcs_flags]
    exact htable _ _ _

/-- C2: in every boot in which `proc_create` returns a process with pid
`PID_INIT` and `kthread_create` returns a thread, the calls made by
`initproc_start` are, in this order and with no other call: `proc_create`,
`kthread_create` (on that process, with entry `initproc_run` and arguments 0 and
`NULL`), `sched_make_runnable` on the created thread, `context_make_active`; each
occurs exactly once and no `panic` occurs before the scheduler is activated. -/
theorem initproc_start_call_sequence (h : Headers) (k : Kernel σ) (w : σ) (p : proc_t)
    (thr : kthread_t)
    (hp : (k.proc_create "init" w).1 = some p) (hpid : p.p_pid = h.PID_INIT)
    (ht : (k.kthread_create p .initproc_run 0 none (k.proc_create "init" w).2).1 = some thr) :
    (initproc_start h k w).trace =
      [.proc_create "init" (some p), .kthread_create p .initproc_run 0 none (some thr),
        .sched_make_runnable thr, .context_make_active] :=
  initproc_start_trace_ok h k w p thr hp hpid ht

/-- C2 at a concrete boot: the kernel of the specification with the sample
header values, started in the empty world. -/
theorem initproc_start_call_sequence_witness :
    ((specKernel sampleHeaders).proc_create "init" World.empty).1 = some ⟨1⟩ ∧
    (⟨1⟩ : proc_t).p_pid = sampleHeaders.PID_INIT ∧
    (initproc_start sampleHeaders (specKernel sampleHeaders) World.empty).trace =
      [.proc_create "init" (some ⟨1⟩), .kthread_create ⟨1⟩ .initproc_run 0 none (some ⟨0⟩),
        .sched_make_runnable ⟨0⟩, .context_make_active] :=
  ⟨rfl, rfl, initproc_start_call_sequence sampleHeaders (specKernel sampleHeaders) World.empty
    ⟨1⟩ ⟨0⟩ rfl rfl rfl⟩

/-- C3: `initproc_start` aborts as soon as the creation of the init process or
of its thread goes wrong.  If `proc_create` returned no process, or a process
whose pid is not `PID_INIT`, the run ends in a panic and `kthread_create`,
`sched_make_runnable` and `context_make_active` are never called; if
`kthread_create` returned no thread, the run ends in a panic and
`sched_make_runnable` and `context_make_active` are never called.  Conversely,
whenever `kthread_create` is called, it is called on a process whose pid is
`PID_INIT`. -/
theorem initproc_start_aborts_on_failure (h : Headers) (k : Kernel σ) (w : σ) :
    (∀ name, Event.proc_create name none ∈ (initproc_start h k w).trace →
      (initproc_start h k w).panicked = true ∧
      ∀ e ∈ (initproc_start h k w).trace, e.is_kthread_create = false ∧
        e.is_sched_make_runnable = false ∧ e.is_context_make_active = false) ∧
    (∀ name p, Event.proc_create name (some p) ∈ (initproc_start h k w).trace →
      p.p_pid ≠ h.PID_INIT →
      (initproc_start h k w).panicked = true ∧
      ∀ e ∈ (initproc_start h k w).trace, e.is_kthread_create = false ∧
        e.is_sched_make_runnable = false ∧ e.is_context_make_active = false) ∧
    (∀ p f a1 a2, Event.kthread_create p f a1 a2 none ∈ (initproc_start h k w).trace →
      (initproc_start h k w).panicked = true ∧
      ∀ e ∈ (initproc_start h k w).trace,
        e.is_sched_make_runnable = false ∧ e.is_context_make_active = false) ∧
    (∀ p f a1 a2 r, Event.kthread_create p f a1 a2 r ∈ (initproc_start h k w).trace →
      p.p_pid = h.PID_INIT) := by
  rcases initproc_start_cases h k w with ⟨ht, ho⟩ | ⟨p, hpid, ht, ho⟩ | ⟨p, hpid, ht, ho⟩ |
    ⟨p, thr, hpid, ht⟩
  · simp [Res.panicked, ht, ho, Event.is_kthread_create, Event.is_sched_make_runnable,
      Event.is_context_make_active]
  · simp [Res.panicked, ht, ho, Event.is_kthread_create, Event.is_sched_make_runnable,
      Event.is_context_make_active]
  · simp [Res.panicked, ht, ho, Event.is_kthread_create, Event.is_sched_make_runnable,
      Event.is_context_make_active]
    refine ⟨hpid, ?_⟩
    intro p2 _ _ _ _ hp2 _ _ _ _
    rw [hp2]; exact hpid
  · simp [ht]
    refine ⟨?_, ?_⟩
    · intro hne
      exact absurd hpid hne
    · intro p2 _ _ _ _ hp2 _ _ _ _
      rw [hp2]; exact hpid

/-- C3 at concrete boots: a kernel whose `proc_create` fails, one that hands out
the wrong pid, one whose `kthread_create` fails, and the kernel of the
specification (where `kthread_create` is reached). -/
theorem initproc_start_aborts_on_failure_witness :
    (Event.proc_create "init" none ∈
        (initproc_start sampleHeaders (noProcKernel sampleHeaders) World.empty).trace ∧
      (initproc_start sampleHeaders (noProcKernel sampleHeaders) World.empty).panicked = true) ∧
    (Event.proc_create "init" (some ⟨2⟩) ∈
        (initproc_start sampleHeaders (wrongPidKernel sampleHeaders) World.empty).trace ∧
      (2 : Int) ≠ sampleHeaders.PID_INIT ∧
      (initproc_start sampleHeaders (wrongPidKernel sampleHeaders) World.empty).panicked = true) ∧
    (Event.kthread_create ⟨1⟩ .initproc_run 0 none none ∈
        (initproc_start sampleHeaders (noThreadKernel sampleHeaders) World.empty).trace ∧
      (initproc_start sampleHeaders (noThreadKernel sampleHeaders) World.empty).panicked = true) ∧
    (Event.kthread_create ⟨1⟩ .initproc_run 0 none (some ⟨0⟩) ∈
        (initproc_start sampleHeaders (specKernel sampleHeaders) World.empty).trace ∧
      (⟨1⟩ : proc_t).p_pid = sampleHeaders.PID_INIT) :=
  ⟨⟨by decide,
      ((initproc_start_aborts_on_failure sampleHeaders (noProcKernel sampleHeaders)
        World.empty).1 "init" (by decide)).1⟩,
    ⟨by decide, by decide,
      ((initproc_start_aborts_on_failure sampleHeaders (wrongPidKernel sampleHeaders)
        World.empty).2.1 "init" ⟨2⟩ (by decide) (by decide)).1⟩,
    ⟨by decide,
      ((initproc_start_aborts_on_failure sampleHeaders (noThreadKernel sampleHeaders)
        World.empty).2.2.1 ⟨1⟩ .initproc_run 0 none (by decide)).1⟩,
    ⟨by decide,
      (initproc_start_aborts_on_failure sampleHeaders (specKernel sampleHeaders)
        World.empty).2.2.2 ⟨1⟩ .initproc_run 0 none (some ⟨0⟩) (by decide)⟩⟩

/-- C8: for every configuration of the `VFS` and `DRIVERS` flags, `initproc_finish`
calls `vfs_shutdown` (only with `VFS`), then `screen_print_shutdown` (only with
`DRIVERS`), then enters the interrupt-disabling halt loop, which it never leaves:
however many rounds are observed, the trace ends in that many `cli; hlt` rounds,
the processor is still in the loop and the trailing panic has not been reached.
If `vfs_shutdown` reports a non-zero status, `initproc_finish` panics right after
it, and neither the console notification nor the halt loop is performed. -/
theorem initproc_finish_order (cfg : Config) (k : Kernel σ) (w : σ) (rounds : Nat) :
    if cfg.VFS = true ∧ (k.vfs_shutdown w).1 ≠ 0 then
      (initproc_finish cfg k rounds w).trace =
          [.vfs_shutdown (k.vfs_shutdown w).1, .panic "vfs shutdown FAILED!!\n"] ∧
        (initproc_finish cfg k rounds w).out = .stopped (.panicked "vfs shutdown FAILED!!\n") ∧
        Event.screen_print_shutdown ∉ (initproc_finish cfg k rounds w).trace ∧
        Event.cli_hlt ∉ (initproc_finish cfg k rounds w).trace
    else
      (initproc_finish cfg k rounds w).trace =
          (if cfg.VFS = true then [.vfs_shutdown 0] else [])
            ++ (if cfg.DRIVERS = true then [.screen_print_shutdown] else [])
            ++ List.replicate rounds .cli_hlt ∧
        (initproc_finish cfg k rounds w).out = .stopped .spinning ∧
        ∀ e ∈ (initproc_finish cfg k rounds w).trace, e.is_panic = false := by
  rw [initproc_finish_eq]
  split
  · simp
  · refine ⟨rfl, rfl, ?_⟩
    intro e he
    simp only [List.mem_append, List.mem_replicate] at he
    rcases he with (he | he) | he
    · split at he <;> simp at he
      rw [he]; rfl
    · split at he <;> simp at he
      rw [he]; rfl
    · rw [he.2]; rfl

/-- C9: for every capability configuration the configured table respects the
dependency order.  `intr_init` comes before `acpi_init` and `apic_init`;
`pt_init` comes before `slab_init` and `pframe_init`; with `DRIVERS`, `proc_init`
and `kthread_init` come before `chardev_init` and `blockdev_init`, which come
before `kshell_init` (without `DRIVERS` the two device initializers are not in
the table); `syscall_init` and `elf64_init` are in the table, and in every run of
`kmain` both are called before `proc_create`, the call by which `initproc_start`
creates the init process. -/
theorem init_funcs_dependency_order (h : Headers) (cfg : Config) (k : Kernel σ) (w : σ) :
    comes_before .intr_init .acpi_init (init_funcs cfg) ∧
    comes_before .intr_init .apic_init (init_funcs cfg) ∧
    comes_before .pt_init .slab_init (init_funcs cfg) ∧
    comes_before .pt_init .pframe_init (init_funcs cfg) ∧
    (if cfg.DRIVERS = true then
        comes_before .proc_init .chardev_init (init_funcs cfg) ∧
        comes_before .proc_init .blockdev_init (init_funcs cfg) ∧
        comes_before .kthread_init .chardev_init (init_funcs cfg) ∧
        comes_before .kthread_init .blockdev_init (init_funcs cfg) ∧
        comes_before .chardev_init .kshell_init (init_funcs cfg) ∧
        comes_before .blockdev_init .kshell_init (init_funcs cfg)
      else
        .chardev_init ∉ init_funcs cfg ∧ .blockdev_init ∉ init_funcs cfg) ∧
    .syscall_init ∈ init_funcs cfg ∧
    .elf64_init ∈ init_funcs cfg ∧
    (∃ pre ret post, (kmain h cfg k w).trace = pre ++ Event.proc_create "init" ret :: post ∧
      Event.init .syscall_init ∈ pre ∧ Event.init .elf64_init ∈ pre ∧
      ∀ e ∈ pre, e.is_proc_create = false) := by
  have htable : ∀ vm dr smp : Bool,
      comes_before .intr_init .acpi_init (init_funcs ⟨vm, dr, smp, false, 0, 0⟩) ∧
      comes_before .intr_init .apic_init (init_funcs ⟨vm, dr, smp, false, 0, 0⟩) ∧
      comes_before .pt_init .slab_init (init_funcs ⟨vm, dr, smp, false, 0, 0⟩) ∧
      comes_before .pt_init .pframe_init (init_funcs ⟨vm, dr, smp, false, 0, 0⟩) ∧
      (if dr = true then
          comes_before .proc_init .chardev_init (init_funcs ⟨vm, dr, smp, false, 0, 0⟩) ∧
          comes_before .proc_init .blockdev_init (init_funcs ⟨vm, dr, smp, false, 0, 0⟩) ∧
          comes_before .kthread_init .chardev_init (init_funcs ⟨vm, dr, smp, false, 0, 0⟩) ∧
          comes_before .kthread_init .blockdev_init (init_funcs ⟨vm, dr, smp, false, 0, 0⟩) ∧
          comes_before .chardev_init .kshell_init (init_funcs ⟨vm, dr, smp, false, 0, 0⟩) ∧
          comes_before .blockdev_init .kshell_init (init_funcs ⟨vm, dr, smp, false, 0, 0⟩)
        else
          .chardev_init ∉ init_funcs ⟨vm, dr, smp, false, 0, 0⟩ ∧
          .blockdev_init ∉ init_funcs ⟨vm, dr, smp, false, 0, 0⟩) ∧
      .syscall_init ∈ init_funcs ⟨vm, dr, smp, false, 0, 0⟩ ∧
      .elf64_init ∈ init_funcs ⟨vm, dr, smp, false, 0, 0⟩ := by decide
  obtain ⟨h1, h2, h3, h4, h5, h6, h7⟩ := htable cfg.VM cfg.DRIVERS cfg.SMP
  rw [← init_funcs_flags] at h1 h2 h3 h4 h5 h6 h7
  refine ⟨h1, h2, h3, h4, h5, h6, h7, ?_⟩
  obtain ⟨rest, hrest⟩ := initproc_start_head h k (after_inits k (init_funcs cfg) w)
  refine ⟨(init_funcs cfg).map Event.init,
    (k.proc_create "init" (after_inits k (init_funcs cfg) w)).1,
    rest ++ (match (initproc_start h k (after_inits k (init_funcs cfg) w)).out with
            | .returned _ => [Event.panic "\nReturned to kmain()\n"]
            | .stopped _ => []), ?_, ?_, ?_, ?_⟩
  · rw [kmain_trace, hrest]
    simp
  · exact List.mem_map_of_mem _ h6
  · exact List.mem_map_of_mem _ h7
  · intro e he
    obtain ⟨f, _, rfl⟩ := List.mem_map.mp he
    rfl

/-- C5: in `make_devices` every creation call (the `do_mkdir` of `/dev` and each
`do_mknod`) is checked the same way.  The calls `done` that were made and passed
the check (status 0 or `-EEXIST`) are an initial segment of the planned calls;
either they are all of them and `make_devices` completes, or the next call `q`
returned another status `s`, `make_devices` panics at that call and the remaining
calls `rest` are never made.  Hence `make_devices` completes if and only if every
creation call returned 0 or `-EEXIST`. -/
theorem make_devices_checks_every_creation (h : Headers) (cfg : Config) (k : Kernel σ)
    (w : σ) :
    (∃ done : List (Req × Int),
      (∀ x ∈ done, x.2 = 0 ∨ x.2 = -h.EEXIST) ∧
      (((make_devices h cfg k w).out = .returned () ∧
          done.map Prod.fst = device_requests h cfg ∧
          (make_devices h cfg k w).trace = done.map (fun x => x.1.event x.2)) ∨
        (∃ q s rest, ¬ (s = 0 ∨ s = -h.EEXIST) ∧
          device_requests h cfg = done.map Prod.fst ++ q :: rest ∧
          (make_devices h cfg k w).trace =
            done.map (fun x => x.1.event x.2) ++
              [q.event s, .panic "assertion failed: !status || status == -EEXIST"] ∧
          (make_devices h cfg k w).out =
            .stopped (.panicked "assertion failed: !status || status == -EEXIST")))) ∧
    ((make_devices h cfg k w).out = .returned () ↔
      ∀ e ∈ (make_devices h cfg k w).trace, ∀ s, e.status = some s →
        s = 0 ∨ s = -h.EEXIST) := by
  rw [make_devices_eq]
  constructor
  · obtain ⟨done, hdone, hcase⟩ := run_requests_shape h k (device_requests h cfg) w
    refine ⟨done, fun x hx => (status_ok_iff h x.2).mp (hdone x hx), ?_⟩
    rcases hcase with hA | ⟨q, s, rest, hs, hreqs, htr, ho⟩
    · exact Or.inl hA
    · refine Or.inr ⟨q, s, rest, ?_, hreqs, htr, ho⟩
      intro hok
      rw [(status_ok_iff h s).mpr hok] at hs
      cases hs
  · rw [run_requests_returned_iff]
    constructor
    · intro hall e he s hes
      exact (status_ok_iff h s).mp (hall e he s hes)
    · intro hall e he s hes
      exact (status_ok_iff h s).mpr (hall e he s hes)

/-- C6: `make_devices` is idempotent on the filesystem of the specification
(where a creation call on an existing path reports `-EEXIST` and changes
nothing).  For every terminal and disk count and every starting state, a first
run completes, and a second run on the state it leaves completes as well, every
one of its creation calls reports `-EEXIST`, and the state after the second run
equals the state after the first. -/
theorem make_devices_idempotent (h : Headers) (cfg : Config) (w : World) :
    (make_devices h cfg (specKernel h) w).out = .returned () ∧
    (make_devices h cfg (specKernel h) (make_devices h cfg (specKernel h) w).world).out =
      .returned () ∧
    (make_devices h cfg (specKernel h) (make_devices h cfg (specKernel h) w).world).world =
      (make_devices h cfg (specKernel h) w).world ∧
    (make_devices h cfg (specKernel h) (make_devices h cfg (specKernel h) w).world).trace =
      (device_requests h cfg).map (fun r => r.event (-h.EEXIST)) := by
  rw [make_devices_eq]
  obtain ⟨ho, _, hall⟩ := run_requests_spec_completes h (device_requests h cfg) w
  rw [run_requests_all_present h (device_requests h cfg) _ hall]
  exact ⟨ho, rfl, rfl, rfl⟩

/-- C10 as stated fails on runs that abort.  With `VFS` and `VM` enabled, when
`do_mkdir` reports `-12` the check in `make_devices` panics and `kernel_execve`
is never called; and when the current process is not the init process the entry
assertion panics before `vfs_init`. -/
theorem initproc_run_calls_counterexample :
    scenarioConfig.VFS = true ∧ scenarioConfig.VM = true ∧
    (initproc_run sampleHeaders scenarioConfig (failingMkdirKernel sampleHeaders) 0 none
        World.empty).trace =
      [.vfs_init, .do_mkdir "/dev" (-12),
        .panic "assertion failed: !status || status == -EEXIST"] ∧
    (initproc_run sampleHeaders scenarioConfig (notInitKernel sampleHeaders) 0 none
        World.empty).trace =
      [.panic "assertion failed: curproc->p_pid == PID_INIT"] := by
  decide

/-- C10, amended: for every configuration of the `VFS`, `DRIVERS` and `VM` flags
(with `DO_KTEST = 0`), in every run in which the entry assertion holds (the
current process has pid `PID_INIT`) and `make_devices` completes, the calls made
by `initproc_run` are exactly: with `VFS`, `vfs_init` followed by the creation
calls of `make_devices`; then, with `VM`, a single `kernel_execve` call with path
`/sbin/init` and empty argument and environment vectors.  No diagnostic suite is
called, no process is created, and with a flag disabled its calls are absent while
the others are unchanged. -/
theorem initproc_run_calls (h : Headers) (cfg : Config) (k : Kernel σ) (a1 : Int)
    (a2 : Option Nat) (w : σ) (hpid : k.curproc_pid w = h.PID_INIT)
    (hmd : cfg.VFS = true → (make_devices h cfg k (k.vfs_init w)).out = .returned ()) :
    (initproc_run h cfg k a1 a2 w).trace =
      (if cfg.VFS = true then Event.vfs_init :: (make_devices h cfg k (k.vfs_init w)).trace
        else [])
      ++ (if cfg.VM = true then [Event.kernel_execve "/sbin/init" [] []] else []) ∧
    (cfg.VFS = true → ∀ e ∈ (make_devices h cfg k (k.vfs_init w)).trace,
      e.is_creation = true) ∧
    (∀ e ∈ (initproc_run h cfg k a1 a2 w).trace,
      e.is_diagnostic = false ∧ e.is_proc_create = false ∧ e.is_panic = false) := by
  have htr := initproc_run_trace h cfg k a1 a2 w hpid hmd
  have hcr : cfg.VFS = true → ∀ e ∈ (make_devices h cfg k (k.vfs_init w)).trace,
      e.is_creation = true :=
    fun hv => make_devices_trace_creation h cfg k _ (hmd hv)
  refine ⟨htr, hcr, ?_⟩
  intro e he
  rw [htr] at he
  rcases List.mem_append.mp he with he | he
  · split at he
    · rename_i hv
      rcases List.mem_cons.mp he with rfl | he
      · exact ⟨rfl, rfl, rfl⟩
      · have := hcr hv e he
        cases e <;> simp_all [Event.is_creation, Event.is_diagnostic, Event.is_proc_create,
          Event.is_panic]
    · simp at he
  · split at he
    · rw [List.mem_singleton.mp he]
      exact ⟨rfl, rfl, rfl⟩
    · simp at he

/-- C10 amended, on the scenario of the specification: the kernel of the
specification, every capability enabled, 4 terminals and 2 disks, empty world. -/
theorem initproc_run_calls_witness :
    (specKernel sampleHeaders).curproc_pid World.empty = sampleHeaders.PID_INIT ∧
    (make_devices sampleHeaders scenarioConfig (specKernel sampleHeaders)
      ((specKernel sampleHeaders).vfs_init World.empty)).out = .returned () ∧
    (initproc_run sampleHeaders scenarioConfig (specKernel sampleHeaders) 0 none
        World.empty).trace =
      [.vfs_init, .do_mkdir "/dev" 0,
       .do_mknod "/dev/null" 0x0100 0x0100 0, .do_mknod "/dev/zero" 0x0100 0x0101 0,
       .do_mknod "/dev/tty0" 0x0100 0x0200 0, .do_mknod "/dev/tty1" 0x0100 0x0201 0,
       .do_mknod "/dev/tty2" 0x0100 0x0202 0, .do_mknod "/dev/tty3" 0x0100 0x0203 0,
       .do_mknod "/dev/hda0" 0x0400 0x0100 0, .do_mknod "/dev/hda1" 0x0400 0x0101 0,
       .kernel_execve "/sbin/init" [] []] :=
  have hmd : (make_devices sampleHeaders scenarioConfig (specKernel sampleHeaders)
      ((specKernel sampleHeaders).vfs_init World.empty)).out = .returned () := by
    rw [make_devices_eq]; decide
  ⟨rfl, hmd,
    (initproc_run_calls sampleHeaders scenarioConfig (specKernel sampleHeaders) 0 none
      World.empty rfl (fun _ => hmd)).1.trans (by rw [make_devices_eq]; decide)⟩

end claims

end Weenix
